import Mathlib

/-!
# Verification of the bStats metrics client (endstone_bstats)

A shallow embedding of the scheduled-submission pipeline and chart-data
aggregation engine of the `endstone_bstats` Python package, together with
proofs about it.

Conventions of the embedding:
* Python dictionaries that serve as JSON objects are association lists
  `List (String × Json)` in insertion order; Python's `d[k] = v` assignment
  (update in place if the key exists, otherwise append) is `dictSet`.
* A Python callable that may raise becomes a value of `Except`; a function
  whose Lean translation returns a plain (non-`Except`) value thereby cannot
  propagate an exception.
* Chart producers (`get_value` / `get_values` callables) are represented by
  the value they return on the one invocation performed by `get_chart_data`.
* Python integers are `Int` (or `Nat` for byte values), Python floats that
  arise from `random.random()` arithmetic are modelled exactly by `ℚ`, and
  Python's `int(...)` truncation is `pyInt`.
-/

set_option linter.unusedVariables false

/-- JSON values, the codomain of every `get_chart_data` and the payload of a
submission cycle. Objects are association lists in insertion order, matching
Python dict order. -/
inductive Json where
  | null : Json
  | str (s : String) : Json
  | int (n : Int) : Json
  | arr (elems : List Json) : Json
  | obj (fields : List (String × Json)) : Json

/-- Python's `d[k] = v` on a dict: replace the value if `k` is present
(keeping its position), otherwise append `(k, v)` at the end. -/
def dictSet (d : List (String × Json)) (k : String) (v : Json) :
    List (String × Json) :=
  if d.any (fun kv => kv.1 == k) then
    d.map (fun kv => if kv.1 == k then (k, v) else kv)
  else
    d ++ [(k, v)]

/-- Python's `d.get(k)` on a dict: the value at the first (and only)
occurrence of `k`, if any. -/
def dictGet (d : List (String × Json)) (k : String) : Option Json :=
  (d.find? (fun kv => kv.1 == k)).map Prod.snd

/-! ## Chart classes

Each `get_chart_data` is translated from its Python source as a function of
the value returned by the chart's producer callable. `none` out of the
producer is Python's `None`; `if not value` is falsy-ness of `None`, of the
empty string, and of the empty dict. -/

/-- `SimplePie.get_chart_data` from `_charts/simple_pie.py`: skip the chart
when the produced string is `None` or empty, else `{"value": value}`. -/
def SimplePie.get_chart_data (value : Option String) : Option Json :=
  match value with
  | none => none
  | some v =>
    if v = "" then none
    else some (Json.obj [("value", Json.str v)])

/-- The `SimplePie.get_chart_data` variant from `_charts/pie.py` (a second
copy of the class in the repository, byte-for-byte the same logic). -/
def PieFile.SimplePie.get_chart_data (value : Option String) : Option Json :=
  match value with
  | none => none
  | some v =>
    if v = "" then none
    else some (Json.obj [("value", Json.str v)])

/-- `AdvancedPie.get_chart_data` from `_charts/pie.py`: skip when the produced
mapping is `None` or empty; drop zero-valued entries; skip when nothing
remains; else `{"values": values}`. -/
def AdvancedPie.get_chart_data (map_values : Option (List (String × Int))) :
    Option Json :=
  match map_values with
  | none => none
  | some m =>
    if m = [] then none
    else
      let values := m.filter (fun kv => kv.2 != 0)
      if values = [] then none
      else some (Json.obj
        [("values", Json.obj (values.map (fun kv => (kv.1, Json.int kv.2))))])

/-- `MultiLineChart.get_chart_data` from `_charts/multi_line_chart.py`: same
shape as `AdvancedPie` (dict comprehension filtering `value != 0`). -/
def MultiLineChart.get_chart_data (map_values : Option (List (String × Int))) :
    Option Json :=
  match map_values with
  | none => none
  | some m =>
    if m = [] then none
    else
      let values := m.filter (fun kv => kv.2 != 0)
      if values = [] then none
      else some (Json.obj
        [("values", Json.obj (values.map (fun kv => (kv.1, Json.int kv.2))))])

/-- `SimpleBarChart.get_chart_data` from `_charts/simple_bar_chart.py`: skip
when the produced mapping is `None` or empty; wrap every value (zeroes
included) in a one-element list; `{"values": {k: [v], ...}}`. -/
def SimpleBarChart.get_chart_data (map_values : Option (List (String × Int))) :
    Option Json :=
  match map_values with
  | none => none
  | some m =>
    if m = [] then none
    else some (Json.obj
      [("values", Json.obj (m.map (fun kv => (kv.1, Json.arr [Json.int kv.2]))))])

/-! ## MetricsBase: one submission cycle (`_base.py`)

`_submit_data` iterates the registered charts, calling each chart's
`_get_request_json_object()` inside a `try`/`except`; the outcome of that
call on this cycle is a `ChartRun`: either a raised exception (`Except.error`
carrying the exception text) or a returned object (`Except.ok`, `none` for
Python `None`). The abstract accessors `append_platform_data` /
`append_service_data` mutate initially-empty dicts; their results enter the
embedding as the `platform_data` / `service_data` parameters. The outcome of
the `self._send_data(...)` call (serialization via `json.dumps`, gzip
compression and the HTTP POST all happen inside it) enters as `send_result`.
The error-log stream (`log_error` calls) is collected in order into a list
of message strings. -/

/-- One registered chart as observed by this cycle: its `chart_id` and the
outcome of calling `_get_request_json_object()` on it. -/
structure ChartRun where
  chart_id : String
  request_json : Except String (Option Json)

/-- The chart-polling loop of `MetricsBase._submit_data` (lines 167-178 of
`_base.py`): returns the collected `chart_data` list and the error-log
messages emitted, in iteration order. The loop body is a `try`/`except`:
a raising chart only contributes a log message (when `log_errors`), never
an exception. Totality of this function is the loop's no-propagation
guarantee. -/
def MetricsBase.collect_chart_data (log_errors : Bool) (charts : List ChartRun) :
    List Json × List String :=
  match charts with
  | [] => ([], [])
  | c :: rest =>
    let tail := MetricsBase.collect_chart_data log_errors rest
    match c.request_json with
    | Except.ok none => tail
    | Except.ok (some j) => (j :: tail.1, tail.2)
    | Except.error _ =>
      (tail.1,
        (if log_errors then
          ["Failed to get data for custom chart with id " ++ c.chart_id]
        else []) ++ tail.2)

/-- What one run of `MetricsBase._submit_data` produces: the assembled
envelope that was handed to `_send_data`, and the error-log messages.
The function's plain (non-`Except`) return type records that the cycle
always returns normally. -/
structure SubmitOutcome where
  envelope : List (String × Json)
  logs : List String

/-- `MetricsBase._submit_data` (lines 156-189 of `_base.py`): poll charts,
assemble `service_data["id"]`, `service_data["customCharts"]`,
`platform_data["service"]`, `platform_data["serverUUID"]`, then try to send;
a failure of `_send_data` is caught and logged as
"Could not submit bStats metrics data" when `log_errors` is set. -/
def MetricsBase.submit_data (log_errors : Bool)
    (platform_data service_data : List (String × Json))
    (server_uuid : String) (service_id : Int)
    (charts : List ChartRun) (send_result : Except String Unit) :
    SubmitOutcome :=
  let polled := MetricsBase.collect_chart_data log_errors charts
  let service_data := dictSet service_data "id" (Json.int service_id)
  let service_data := dictSet service_data "customCharts" (Json.arr polled.1)
  let platform_data := dictSet platform_data "service" (Json.obj service_data)
  let platform_data := dictSet platform_data "serverUUID" (Json.str server_uuid)
  let send_logs : List String :=
    match send_result with
    | Except.ok _ => []
    | Except.error _ =>
      if log_errors then ["Could not submit bStats metrics data"] else []
  { envelope := platform_data, logs := polled.2 ++ send_logs }

/-! ## MetricsBase: scheduling (`_start_submitting`, lines 135-153) -/

/-- Python's `int(...)` applied to a number: truncation toward zero. -/
def pyInt (q : ℚ) : Int :=
  if q < 0 then -⌊-q⌋ else ⌊q⌋

/-- The arguments `MetricsBase._start_submitting` passes to the executor:
the one-shot `submit(submit_task, initial_delay)` delay, and the
`submit_at_fixed_rate(submit_task, initial_delay + second_delay, 60 * 30)`
initial delay and period. -/
structure ScheduledCalls where
  initial_delay : Int
  fixed_rate_initial_delay : Int
  fixed_rate_period : Int

/-- `MetricsBase._start_submitting`, as a function of the two values `r1`,
`r2` returned by the two `random.random()` calls:
`initial_delay = int((3 + r1 * 3) * 60)`,
`second_delay = int((r2 * 30) * 60)`. -/
def MetricsBase.start_submitting (r1 r2 : ℚ) : ScheduledCalls :=
  let initial_delay := pyInt ((3 + r1 * 3) * 60)
  let second_delay := pyInt ((r2 * 30) * 60)
  { initial_delay := initial_delay
    fixed_rate_initial_delay := initial_delay + second_delay
    fixed_rate_period := 60 * 30 }

/-! ## Metrics (`_metrics.py`): constructor scheduling path -/

/-- A raised Python exception relevant to the `Metrics` constructor. -/
inductive PyExc where
  | notImplementedError

/-- `Metrics._start_submitting` (lines 133-134 of `_metrics.py`):
`raise NotImplementedError()`. -/
def Metrics.start_submitting : Except PyExc Unit :=
  Except.error PyExc.notImplementedError

/-- The configuration values `_load_config` leaves on the instance. -/
structure MetricsConfig where
  enabled : Bool
  server_uuid : String
  log_failed_requests : Bool
  log_sent_data : Bool
  log_response_status_text : Bool

/-- The tail of `Metrics.__init__` (lines 64-67 of `_metrics.py`), after
`_load_config` has produced `cfg`: when enabled, the instance is registered
and, when no scheduler process exists yet, `_start_submitting()` is called —
whose exception, if raised, propagates out of the constructor. -/
def Metrics.init_schedule (cfg : MetricsConfig) (scheduler_exists : Bool) :
    Except PyExc Unit :=
  if cfg.enabled then
    if scheduler_exists then Except.ok ()
    else Metrics.start_submitting
  else Except.ok ()

/-! ## Theorems: chart payload shapes -/

/-- C3: `SimplePie.get_chart_data` returns `none` exactly when the producer
returned an absent (`None`) or empty string, and otherwise returns the object
`{"value": s}` for the produced string `s`; the duplicate `SimplePie` class in
`_charts/pie.py` computes the same function. -/
theorem simplePie_chart_data_spec (value : Option String) :
    (SimplePie.get_chart_data value = none ↔ value = none ∨ value = some "") ∧
    (∀ s : String, value = some s → s ≠ "" →
      SimplePie.get_chart_data value = some (Json.obj [("value", Json.str s)])) ∧
    PieFile.SimplePie.get_chart_data value = SimplePie.get_chart_data value := by
  refine ⟨?_, ?_, ?_⟩
  · cases value with
    | none => simp [SimplePie.get_chart_data]
    | some v =>
      by_cases hv : v = "" <;>
        simp [SimplePie.get_chart_data, hv]
  · intro s hs hne
    subst hs
    simp [SimplePie.get_chart_data, hne]
  · cases value with
    | none => rfl
    | some v => rfl

/-- Witness for C3 at the spec's own examples: a producer returning "42"
yields `{"value": "42"}`, while empty and absent producers are omitted. -/
theorem simplePie_chart_data_spec_witness :
    SimplePie.get_chart_data (some "42")
        = some (Json.obj [("value", Json.str "42")]) ∧
    SimplePie.get_chart_data (some "") = none ∧
    SimplePie.get_chart_data none = none := by
  refine ⟨?_, ?_, ?_⟩
  · exact (simplePie_chart_data_spec (some "42")).2.1 "42" rfl (by decide)
  · exact (simplePie_chart_data_spec (some "")).1.mpr (Or.inr rfl)
  · exact (simplePie_chart_data_spec none).1.mpr (Or.inl rfl)

/-- C4: `AdvancedPie.get_chart_data` and `MultiLineChart.get_chart_data`
agree; both drop every zero-valued entry, return `{"values": m}` for the
remaining entries `m` when at least one entry is non-zero, and return `none`
when the producer returned `None`, an empty mapping, or a mapping whose
entries are all zero. -/
theorem advancedPie_chart_data_spec (map_values : Option (List (String × Int))) :
    (MultiLineChart.get_chart_data map_values
        = AdvancedPie.get_chart_data map_values) ∧
    (AdvancedPie.get_chart_data none = none) ∧
    (∀ l : List (String × Int), map_values = some l →
      ((∀ kv ∈ l, kv.2 = 0) → AdvancedPie.get_chart_data map_values = none) ∧
      ((∃ kv ∈ l, kv.2 ≠ 0) →
        AdvancedPie.get_chart_data map_values
          = some (Json.obj [("values", Json.obj
              ((l.filter (fun kv => kv.2 != 0)).map
                (fun kv => (kv.1, Json.int kv.2))))]))) := by
  refine ⟨rfl, rfl, ?_⟩
  rintro l rfl
  constructor
  · intro hall
    rcases List.eq_nil_or_concat l with hl | _
    · simp [AdvancedPie.get_chart_data, hl]
    · have hfil : l.filter (fun kv => kv.2 != 0) = [] := by
        rw [List.filter_eq_nil_iff]
        intro kv hkv
        simpa using hall kv hkv
      by_cases hl : l = [] <;>
        simp [AdvancedPie.get_chart_data, hl, hfil]
  · rintro ⟨kv, hkv, hne⟩
    have hl : l ≠ [] := by
      rintro rfl
      exact absurd hkv (List.not_mem_nil kv)
    have hfil : l.filter (fun kv => kv.2 != 0) ≠ [] := by
      rw [Ne, List.filter_eq_nil_iff]
      push_neg
      exact ⟨kv, hkv, by simpa using hne⟩
    simp only [AdvancedPie.get_chart_data, if_neg hl, if_neg hfil]

/-- Witness for C4 at the spec's example: `{"a": 0, "b": 5}` yields
`{"values": {"b": 5}}`, and an all-zero mapping is omitted. -/
theorem advancedPie_chart_data_spec_witness :
    AdvancedPie.get_chart_data (some [("a", 0), ("b", 5)])
        = some (Json.obj [("values", Json.obj [("b", Json.int 5)])]) ∧
    AdvancedPie.get_chart_data (some [("a", 0)]) = none ∧
    MultiLineChart.get_chart_data (some [("a", 0), ("b", 5)])
        = AdvancedPie.get_chart_data (some [("a", 0), ("b", 5)]) := by
  refine ⟨?_, ?_, ?_⟩
  · have h := ((advancedPie_chart_data_spec (some [("a", 0), ("b", 5)])).2.2
      [("a", 0), ("b", 5)] rfl).2 ⟨("b", 5), by decide, by decide⟩
    rw [h]
    rfl
  · exact ((advancedPie_chart_data_spec (some [("a", 0)])).2.2
      [("a", 0)] rfl).1 (by decide)
  · exact (advancedPie_chart_data_spec (some [("a", 0), ("b", 5)])).1

/-- C5: `SimpleBarChart.get_chart_data` on a non-empty produced mapping keeps
every entry (zero values included), wrapping each value in a one-element
array: `{"values": {k: [v], ...}}`; absent and empty mappings are omitted. -/
theorem simpleBarChart_chart_data_spec (map_values : Option (List (String × Int))) :
    (SimpleBarChart.get_chart_data none = none) ∧
    (SimpleBarChart.get_chart_data (some []) = none) ∧
    (∀ l : List (String × Int), map_values = some l → l ≠ [] →
      SimpleBarChart.get_chart_data map_values
        = some (Json.obj [("values", Json.obj
            (l.map (fun kv => (kv.1, Json.arr [Json.int kv.2]))))])) := by
  refine ⟨rfl, rfl, ?_⟩
  rintro l rfl hl
  simp only [SimpleBarChart.get_chart_data, if_neg hl]

/-- Witness for C5 at the spec's example: `{"a": 0}` yields
`{"values": {"a": [0]}}` — the zero entry is kept. -/
theorem simpleBarChart_chart_data_spec_witness :
    SimpleBarChart.get_chart_data (some [("a", 0)])
        = some (Json.obj [("values", Json.obj [("a", Json.arr [Json.int 0])])]) := by
  have h := (simpleBarChart_chart_data_spec (some [("a", 0)])).2.2
    [("a", 0)] rfl (by decide)
  rw [h]
  rfl

/-! ## Dictionary lemmas -/

theorem string_beq_false_of_ne {a b : String} (h : a ≠ b) : (a == b) = false := by
  simpa using h

theorem find?_cons_true {α : Type} (p : α → Bool) (a : α) (l : List α)
    (h : p a = true) : (a :: l).find? p = some a := by
  simp [List.find?, h]

theorem find?_cons_false {α : Type} (p : α → Bool) (a : α) (l : List α)
    (h : p a = false) : (a :: l).find? p = l.find? p := by
  simp [List.find?, h]

theorem find?_map_dictSet_self (k : String) (v : Json) :
    ∀ d : List (String × Json), d.any (fun kv => kv.1 == k) = true →
      (d.map (fun kv => if kv.1 == k then (k, v) else kv)).find?
          (fun kv => kv.1 == k) = some (k, v) := by
  intro d
  induction d with
  | nil => simp
  | cons a d ih =>
    intro hany
    rw [List.map_cons]
    by_cases ha : a.1 = k
    · have hpos : ((if a.1 == k then (k, v) else a).1 == k) = true := by
        simp [ha]
      rw [find?_cons_true (fun kv : String × Json => kv.1 == k) _ _ hpos]
      simp [ha]
    · have ha' : (a.1 == k) = false := string_beq_false_of_ne ha
      have hneg : ((if a.1 == k then (k, v) else a).1 == k) = false := by
        rw [ha']
        simpa using ha'
      rw [find?_cons_false (fun kv : String × Json => kv.1 == k) _ _ hneg]
      have hany' : d.any (fun kv => kv.1 == k) = true := by
        simpa [ha'] using hany
      exact ih hany'

theorem find?_map_dictSet_ne (k k' : String) (v : Json) (hne : k' ≠ k) :
    ∀ d : List (String × Json),
      (d.map (fun kv => if kv.1 == k then (k, v) else kv)).find?
          (fun kv => kv.1 == k')
        = d.find? (fun kv => kv.1 == k') := by
  intro d
  induction d with
  | nil => simp
  | cons a d ih =>
    rw [List.map_cons]
    by_cases ha : a.1 = k
    · have hk : (k == k') = false := string_beq_false_of_ne fun h => hne h.symm
      have ha2 : (a.1 == k') = false := by
        rw [ha]
        exact hk
      have hneg : ((if a.1 == k then (k, v) else a).1 == k') = false := by
        simp only [ha, beq_self_eq_true, if_true]
        exact hk
      rw [find?_cons_false (fun kv : String × Json => kv.1 == k') _ _ hneg,
        find?_cons_false (fun kv : String × Json => kv.1 == k') _ _ ha2]
      exact ih
    · have ha' : (a.1 == k) = false := string_beq_false_of_ne ha
      have hsame : (if a.1 == k then (k, v) else a) = a := by
        rw [ha']
        simp
      rw [hsame]
      by_cases ha2 : a.1 = k'
      · have hp : (a.1 == k') = true := by simp [ha2]
        rw [find?_cons_true (fun kv : String × Json => kv.1 == k') _ _ hp,
          find?_cons_true (fun kv : String × Json => kv.1 == k') _ _ hp]
      · have hp : (a.1 == k') = false := string_beq_false_of_ne ha2
        rw [find?_cons_false (fun kv : String × Json => kv.1 == k') _ _ hp,
          find?_cons_false (fun kv : String × Json => kv.1 == k') _ _ hp]
        exact ih

/-- Setting a key then reading it back gives the value just written. -/
theorem dictGet_dictSet_self (d : List (String × Json)) (k : String) (v : Json) :
    dictGet (dictSet d k v) k = some v := by
  unfold dictGet dictSet
  by_cases hany : d.any (fun kv => kv.1 == k) = true
  · rw [if_pos hany, find?_map_dictSet_self k v d hany]
    rfl
  · rw [if_neg hany, List.find?_append]
    have hnone : d.find? (fun kv => kv.1 == k) = none := by
      rw [List.find?_eq_none]
      intro x hx hpx
      exact hany (List.any_eq_true.mpr ⟨x, hx, hpx⟩)
    simp [hnone, List.find?]

/-- Setting a key leaves every other key unchanged. -/
theorem dictGet_dictSet_ne (d : List (String × Json)) (k k' : String) (v : Json)
    (hne : k' ≠ k) : dictGet (dictSet d k v) k' = dictGet d k' := by
  unfold dictGet dictSet
  by_cases hany : d.any (fun kv => kv.1 == k) = true
  · rw [if_pos hany, find?_map_dictSet_ne k k' v hne d]
  · rw [if_neg hany, List.find?_append]
    have hk : (k == k') = false := string_beq_false_of_ne fun h => hne h.symm
    have h1 : List.find? (fun kv => kv.1 == k') [(k, v)] = none := by
      rw [find?_cons_false (fun kv : String × Json => kv.1 == k') _ _ hk]
      rfl
    rw [h1]
    simp

/-! ## Chart-polling loop lemmas -/

theorem MetricsBase.mem_collect_of_ok (log_errors : Bool) (j : Json) (c : ChartRun) :
    ∀ charts : List ChartRun, c ∈ charts →
      c.request_json = Except.ok (some j) →
      j ∈ (MetricsBase.collect_chart_data log_errors charts).1 := by
  intro charts
  induction charts with
  | nil => intro h; exact absurd h (List.not_mem_nil c)
  | cons c0 rest ih =>
    intro hmem hok
    rcases List.mem_cons.mp hmem with rfl | hrest
    · rw [MetricsBase.collect_chart_data, hok]
      exact List.mem_cons_self _ _
    · have htail := ih hrest hok
      rw [MetricsBase.collect_chart_data]
      rcases hreq : c0.request_json with e | j0
      · exact htail
      · rcases j0 with _ | j0
        · exact htail
        · exact List.mem_cons_of_mem _ htail

theorem MetricsBase.mem_collect_logs_of_error (log_errors : Bool) (e : String)
    (c : ChartRun) :
    ∀ charts : List ChartRun, c ∈ charts →
      c.request_json = Except.error e → log_errors = true →
      ("Failed to get data for custom chart with id " ++ c.chart_id)
        ∈ (MetricsBase.collect_chart_data log_errors charts).2 := by
  intro charts
  induction charts with
  | nil => intro h; exact absurd h (List.not_mem_nil c)
  | cons c0 rest ih =>
    intro hmem herr hlog
    rcases List.mem_cons.mp hmem with rfl | hrest
    · rw [MetricsBase.collect_chart_data, herr, hlog]
      exact List.mem_cons_self _ _
    · have htail := ih hrest herr hlog
      rw [MetricsBase.collect_chart_data]
      rcases hreq : c0.request_json with e0 | j0
      · rcases hif : (if log_errors = true then
            ["Failed to get data for custom chart with id " ++ c0.chart_id]
          else ([] : List String)) with _ | ⟨m, ms⟩
        · simpa [hif] using htail
        · exact List.mem_append_right _ htail
      · rcases j0 with _ | j0
        · exact htail
        · exact htail

/-! ## Theorems: the submission cycle -/

/-- C1: a chart whose producer raises does not abort the cycle. For any cycle
(`MetricsBase.submit_data`, a total function — no exception escapes the
chart-polling loop): every chart whose `_get_request_json_object()` call
succeeds with a non-`None` payload still has that payload in the
`customCharts` array of the cycle's envelope, and for every chart whose call
raises, when error logging is enabled, the message
"Failed to get data for custom chart with id <id>" is handed to the error
logger; the failing chart contributes nothing else. -/
theorem MetricsBase.submit_data_isolates_chart_failures
    (log_errors : Bool) (platform_data service_data : List (String × Json))
    (server_uuid : String) (service_id : Int)
    (charts : List ChartRun) (send_result : Except String Unit)
    (c : ChartRun) (j : Json) (hc : c ∈ charts)
    (hok : c.request_json = Except.ok (some j)) :
    (∃ svc : List (String × Json),
      dictGet (MetricsBase.submit_data log_errors platform_data service_data
          server_uuid service_id charts send_result).envelope "service"
        = some (Json.obj svc) ∧
      dictGet svc "customCharts"
        = some (Json.arr (MetricsBase.collect_chart_data log_errors charts).1) ∧
      j ∈ (MetricsBase.collect_chart_data log_errors charts).1) ∧
    (∀ c2 ∈ charts, ∀ e : String, c2.request_json = Except.error e →
      log_errors = true →
      ("Failed to get data for custom chart with id " ++ c2.chart_id)
        ∈ (MetricsBase.submit_data log_errors platform_data service_data
            server_uuid service_id charts send_result).logs) := by
  constructor
  · refine ⟨dictSet (dictSet service_data "id" (Json.int service_id))
      "customCharts"
      (Json.arr (MetricsBase.collect_chart_data log_errors charts).1), ?_, ?_, ?_⟩
    · show dictGet (dictSet (dictSet platform_data "service" _) "serverUUID" _)
        "service" = _
      rw [dictGet_dictSet_ne _ _ _ _ (by decide), dictGet_dictSet_self]
    · exact dictGet_dictSet_self _ _ _
    · exact MetricsBase.mem_collect_of_ok log_errors j c charts hc hok
  · intro c2 hc2 e herr hlog
    have hmem := MetricsBase.mem_collect_logs_of_error log_errors e c2 charts
      hc2 herr hlog
    exact List.mem_append_left _ hmem

/-- Witness for C1: a cycle with one failing chart and one succeeding chart;
the succeeding chart's payload is in the collected array and the failing
chart's id is in the error log. -/
theorem MetricsBase.submit_data_isolates_chart_failures_witness :
    (Json.obj [("value", Json.str "42")])
      ∈ (MetricsBase.collect_chart_data true
          [⟨"bad", Except.error "boom"⟩,
           ⟨"good", Except.ok (some (Json.obj [("value", Json.str "42")]))⟩]).1 ∧
    "Failed to get data for custom chart with id bad"
      ∈ (MetricsBase.submit_data true [] [] "u" 1
          [⟨"bad", Except.error "boom"⟩,
           ⟨"good", Except.ok (some (Json.obj [("value", Json.str "42")]))⟩]
          (Except.ok ())).logs := by
  have h := MetricsBase.submit_data_isolates_chart_failures true [] [] "u" 1
    [⟨"bad", Except.error "boom"⟩,
     ⟨"good", Except.ok (some (Json.obj [("value", Json.str "42")]))⟩]
    (Except.ok ())
    ⟨"good", Except.ok (some (Json.obj [("value", Json.str "42")]))⟩
    (Json.obj [("value", Json.str "42")])
    (by simp) rfl
  refine ⟨h.1.choose_spec.2.2, ?_⟩
  exact h.2 ⟨"bad", Except.error "boom"⟩ (by simp) "boom" rfl rfl

/-- C2: a failure of `_send_data` (serialization, compression or transport)
is caught inside `_submit_data`: the cycle still produces a `SubmitOutcome`
(no exception escapes — the function is total), and its error-log stream is
the chart-poll log followed by "Could not submit bStats metrics data" exactly
when error logging is enabled. -/
theorem MetricsBase.submit_data_catches_send_failure
    (log_errors : Bool) (platform_data service_data : List (String × Json))
    (server_uuid : String) (service_id : Int)
    (charts : List ChartRun) (e : String) :
    (MetricsBase.submit_data log_errors platform_data service_data
        server_uuid service_id charts (Except.error e)).logs
      = (MetricsBase.collect_chart_data log_errors charts).2
          ++ (if log_errors then ["Could not submit bStats metrics data"]
              else []) ∧
    (MetricsBase.submit_data log_errors platform_data service_data
        server_uuid service_id charts (Except.error e)).envelope
      = (MetricsBase.submit_data log_errors platform_data service_data
          server_uuid service_id charts (Except.ok ())).envelope := by
  exact ⟨rfl, rfl⟩

/-- Witness for C2: with error logging enabled and a failing send, the cycle
logs exactly the expected message. -/
theorem MetricsBase.submit_data_catches_send_failure_witness :
    (MetricsBase.submit_data true [] [] "u" 1 [] (Except.error "http 500")).logs
      = ["Could not submit bStats metrics data"] := by
  have h := MetricsBase.submit_data_catches_send_failure true [] [] "u" 1 []
    "http 500"
  rw [h.1]
  rfl

/-- C8: the envelope of a cycle is the platform-data mapping extended with
a "service" key holding the service-data mapping (itself carrying "id" equal
to the service id and "customCharts" equal to the collected chart payloads)
and a "serverUUID" key holding the string form of the server UUID; all other
keys of the two accessor-produced mappings pass through unchanged. -/
theorem MetricsBase.submit_data_envelope_spec
    (log_errors : Bool) (platform_data service_data : List (String × Json))
    (server_uuid : String) (service_id : Int)
    (charts : List ChartRun) (send_result : Except String Unit) :
    (∀ k : String, k ≠ "service" → k ≠ "serverUUID" →
      dictGet (MetricsBase.submit_data log_errors platform_data service_data
          server_uuid service_id charts send_result).envelope k
        = dictGet platform_data k) ∧
    dictGet (MetricsBase.submit_data log_errors platform_data service_data
        server_uuid service_id charts send_result).envelope "serverUUID"
      = some (Json.str server_uuid) ∧
    (∃ svc : List (String × Json),
      dictGet (MetricsBase.submit_data log_errors platform_data service_data
          server_uuid service_id charts send_result).envelope "service"
        = some (Json.obj svc) ∧
      dictGet svc "id" = some (Json.int service_id) ∧
      dictGet svc "customCharts"
        = some (Json.arr (MetricsBase.collect_chart_data log_errors charts).1) ∧
      (∀ k : String, k ≠ "id" → k ≠ "customCharts" →
        dictGet svc k = dictGet service_data k)) := by
  refine ⟨?_, ?_, ?_⟩
  · intro k hks hku
    show dictGet (dictSet (dictSet platform_data "service" _) "serverUUID" _) k
      = _
    rw [dictGet_dictSet_ne _ _ _ _ hku, dictGet_dictSet_ne _ _ _ _ hks]
  · exact dictGet_dictSet_self _ _ _
  · refine ⟨dictSet (dictSet service_data "id" (Json.int service_id))
      "customCharts"
      (Json.arr (MetricsBase.collect_chart_data log_errors charts).1),
      ?_, ?_, ?_, ?_⟩
    · show dictGet (dictSet (dictSet platform_data "service" _) "serverUUID" _)
        "service" = _
      rw [dictGet_dictSet_ne _ _ _ _ (by decide), dictGet_dictSet_self]
    · rw [dictGet_dictSet_ne _ _ _ _ (by decide), dictGet_dictSet_self]
    · exact dictGet_dictSet_self _ _ _
    · intro k hki hkc
      rw [dictGet_dictSet_ne _ _ _ _ hkc, dictGet_dictSet_ne _ _ _ _ hki]

/-- Witness for C8 on a concrete cycle: platform fields pass through, and the
service object carries the id and the chart payloads. -/
theorem MetricsBase.submit_data_envelope_spec_witness :
    dictGet (MetricsBase.submit_data false
        [("osName", Json.str "Linux")] [("pluginVersion", Json.str "1.0")]
        "my-uuid" 7
        [⟨"good", Except.ok (some (Json.str "d"))⟩] (Except.ok ())).envelope
        "osName" = some (Json.str "Linux") ∧
    dictGet (MetricsBase.submit_data false
        [("osName", Json.str "Linux")] [("pluginVersion", Json.str "1.0")]
        "my-uuid" 7
        [⟨"good", Except.ok (some (Json.str "d"))⟩] (Except.ok ())).envelope
        "serverUUID" = some (Json.str "my-uuid") := by
  have h := MetricsBase.submit_data_envelope_spec false
    [("osName", Json.str "Linux")] [("pluginVersion", Json.str "1.0")]
    "my-uuid" 7 [⟨"good", Except.ok (some (Json.str "d"))⟩] (Except.ok ())
  exact ⟨h.1 "osName" (by decide) (by decide), h.2.1⟩

/-! ## Theorems: scheduling and the Metrics constructor -/

/-- C9: for any two draws `r1`, `r2` of `random.random()` (values in
`[0, 1)`), `_start_submitting` schedules the one-shot task with an initial
delay in the 180-to-360-second range, schedules the fixed-rate task with an
initial delay equal to that initial delay plus a second draw-derived value in
the 0-to-1800-second range, and fixes the period at exactly 1800 seconds. -/
theorem MetricsBase.start_submitting_spec (r1 r2 : ℚ)
    (h1l : 0 ≤ r1) (h1u : r1 < 1) (h2l : 0 ≤ r2) (h2u : r2 < 1) :
    180 ≤ (MetricsBase.start_submitting r1 r2).initial_delay ∧
    (MetricsBase.start_submitting r1 r2).initial_delay < 360 ∧
    (∃ d2 : Int, 0 ≤ d2 ∧ d2 < 1800 ∧
      (MetricsBase.start_submitting r1 r2).fixed_rate_initial_delay
        = (MetricsBase.start_submitting r1 r2).initial_delay + d2) ∧
    (MetricsBase.start_submitting r1 r2).fixed_rate_period = 1800 := by
  have hq1 : (0 : ℚ) ≤ (3 + r1 * 3) * 60 := by nlinarith
  have hq2 : (0 : ℚ) ≤ (r2 * 30) * 60 := by nlinarith
  have hp1 : pyInt ((3 + r1 * 3) * 60) = ⌊(3 + r1 * 3) * 60⌋ := by
    rw [pyInt, if_neg (not_lt.mpr hq1)]
  have hp2 : pyInt ((r2 * 30) * 60) = ⌊(r2 * 30) * 60⌋ := by
    rw [pyInt, if_neg (not_lt.mpr hq2)]
  refine ⟨?_, ?_, ⟨pyInt ((r2 * 30) * 60), ?_, ?_, rfl⟩, rfl⟩
  · show (180 : Int) ≤ pyInt ((3 + r1 * 3) * 60)
    rw [hp1, Int.le_floor]
    push_cast
    nlinarith
  · show pyInt ((3 + r1 * 3) * 60) < 360
    rw [hp1, Int.floor_lt]
    push_cast
    nlinarith
  · rw [hp2, Int.le_floor]
    push_cast
    nlinarith
  · rw [hp2, Int.floor_lt]
    push_cast
    nlinarith

/-- Witness for C9 at `r1 = 1/2`, `r2 = 1/4`: the scheduled delays are 270
and 270 + 450 seconds with a 1800-second period. -/
theorem MetricsBase.start_submitting_spec_witness :
    180 ≤ (MetricsBase.start_submitting (1/2) (1/4)).initial_delay ∧
    (MetricsBase.start_submitting (1/2) (1/4)).initial_delay < 360 ∧
    (∃ d2 : Int, 0 ≤ d2 ∧ d2 < 1800 ∧
      (MetricsBase.start_submitting (1/2) (1/4)).fixed_rate_initial_delay
        = (MetricsBase.start_submitting (1/2) (1/4)).initial_delay + d2) ∧
    (MetricsBase.start_submitting (1/2) (1/4)).fixed_rate_period = 1800 :=
  MetricsBase.start_submitting_spec (1/2) (1/4)
    (by norm_num) (by norm_num) (by norm_num) (by norm_num)

/-- C10: when the loaded configuration has `enabled = true` and no scheduler
process exists, `Metrics.__init__` calls the stub `_start_submitting`, which
raises `NotImplementedError` out of the constructor — the public `Metrics`
class can never begin scheduled submission. -/
theorem Metrics.init_schedule_raises (cfg : MetricsConfig)
    (hen : cfg.enabled = true) :
    Metrics.init_schedule cfg false = Except.error PyExc.notImplementedError := by
  rw [Metrics.init_schedule, hen]
  rfl

/-- Witness for C10 at a concrete enabled configuration. -/
theorem Metrics.init_schedule_raises_witness :
    Metrics.init_schedule
        ⟨true, "some-uuid", false, false, false⟩ false
      = Except.error PyExc.notImplementedError :=
  Metrics.init_schedule_raises ⟨true, "some-uuid", false, false, false⟩ rfl

/-! ## The compressor (`Metrics.compress` / `MetricsBase._compress`)

Both compressors open `gzip.GzipFile(fileobj=BytesIO, mode="w"/"wb")` with
the defaults `compresslevel=9` and `mtime=None` and write the UTF-8 encoding
of the payload. The embedding models the byte stream that call produces:

* the 10-byte gzip header CPython writes for a nameless `fileobj`:
  magic `1f 8b`, method `08`, flags `00`, then the 4-byte little-endian
  MTIME field — **`int(time.time())` at call time**, because `mtime=None` —
  then XFL `02` (level 9) and OS `ff`; the ambient time read becomes the
  explicit `mtime` argument of the Lean function;
* a deflate body holding the payload bytes; zlib's bit-level output is
  modelled by stored (BTYPE=00) deflate blocks of at most 65535 bytes, a
  valid deflate encoding carrying the payload verbatim, which preserves the
  properties at stake: the body is a deterministic function of the payload
  bytes and decompression recovers them exactly;
* the CRC-32 (polynomial `0xEDB88320`, reflected, as in zlib) of the payload
  bytes and the payload length, each little-endian 32-bit.

`gzipDecompressBytes` is the matching gzip reader (header check, inflate,
CRC and length check), used to state the round-trip claim. -/

/-- A 32-bit value as 4 little-endian bytes. -/
def le32 (n : Nat) : List Nat :=
  [n % 256, n / 256 % 256, n / 65536 % 256, n / 16777216 % 256]

/-- The reflected CRC-32 polynomial used by zlib/gzip. -/
def crc32Poly : Nat := 0xEDB88320

/-- One bit-step of the reflected CRC-32. -/
def crcStep (c : Nat) : Nat :=
  if c % 2 = 1 then (c / 2) ^^^ crc32Poly else c / 2

/-- Fold one byte into a CRC-32 accumulator. -/
def crcByteStep (c b : Nat) : Nat :=
  crcStep^[8] (c ^^^ (b % 256))

/-- CRC-32 of a byte list, as gzip stores it in its trailer. -/
def crc32 (bs : List Nat) : Nat :=
  (bs.foldl crcByteStep 0xFFFFFFFF) ^^^ 0xFFFFFFFF

/-- One stored (BTYPE=00) deflate block: the BFINAL byte, `LEN`
little-endian, `NLEN` (its ones-complement) little-endian, then the chunk
bytes verbatim. -/
def mkStoredBlock (bfinal : Nat) (chunk : List Nat) : List Nat :=
  bfinal :: chunk.length % 256 :: chunk.length / 256 ::
    (65535 - chunk.length) % 256 :: (65535 - chunk.length) / 256 :: chunk

/-- A deflate stream of stored blocks carrying `bs`: chunks of at most 65535
bytes, the last block marked final. -/
def deflateStored (bs : List Nat) : List Nat :=
  if h : bs.length ≤ 65535 then
    mkStoredBlock 1 bs
  else
    mkStoredBlock 0 (bs.take 65535) ++ deflateStored (bs.drop 65535)
termination_by bs.length
decreasing_by
  simp only [List.length_drop]
  omega

/-- Inflate a stored-block deflate stream: returns the decoded bytes and the
bytes following the final block, or `none` on a malformed stream. -/
def inflate (s : List Nat) : Option (List Nat × List Nat) :=
  match s with
  | bfinal :: l0 :: l1 :: n0 :: n1 :: rest =>
    if n0 + 256 * n1 = 65535 - (l0 + 256 * l1) ∧ l0 + 256 * l1 ≤ 65535 ∧
        l0 + 256 * l1 ≤ rest.length then
      if bfinal = 1 then
        some (rest.take (l0 + 256 * l1), rest.drop (l0 + 256 * l1))
      else if bfinal = 0 then
        (inflate (rest.drop (l0 + 256 * l1))).map
          (fun p => (rest.take (l0 + 256 * l1) ++ p.1, p.2))
      else none
    else none
  | _ => none
termination_by s.length
decreasing_by
  simp only [List.length_drop, List.length_cons]
  omega

/-- The 10-byte gzip header CPython's `GzipFile` writes for a nameless
`BytesIO` at compression level 9, with the given MTIME value. -/
def gzipHeader (mtime : Nat) : List Nat :=
  [31, 139, 8, 0] ++ le32 mtime ++ [2, 255]

/-- The full gzip member for payload bytes `bs`, stamped with `mtime`:
header, deflate body, CRC-32 and length trailer. -/
def gzipCompressBytes (mtime : Nat) (bs : List Nat) : List Nat :=
  gzipHeader mtime ++ deflateStored bs ++ le32 (crc32 bs)
    ++ le32 (bs.length % 4294967296)

/-- Read back a gzip member produced with a flag-less header: check the
magic, method and flags, inflate the body, and check the CRC-32 and length
trailer. The MTIME, XFL and OS bytes are, as in gzip, not validated. -/
def gzipDecompressBytes (s : List Nat) : Option (List Nat) :=
  match s with
  | id1 :: id2 :: cm :: flg :: m0 :: m1 :: m2 :: m3 :: xfl :: osb :: rest =>
    if id1 = 31 ∧ id2 = 139 ∧ cm = 8 ∧ flg = 0 then
      match inflate rest with
      | some p =>
        match p.2 with
        | [c0, c1, c2, c3, i0, i1, i2, i3] =>
          if c0 + 256 * c1 + 65536 * c2 + 16777216 * c3 = crc32 p.1 ∧
              i0 + 256 * i1 + 65536 * i2 + 16777216 * i3
                = p.1.length % 4294967296 then
            some p.1
          else none
        | _ => none
      | none => none
    else none
  | _ => none

/-- UTF-8 encoding of one Unicode scalar value, as `str.encode("utf-8")`
produces it byte by byte. -/
def utf8EncodeChar (c : Nat) : List Nat :=
  if c < 128 then [c]
  else if c < 2048 then [192 + c / 64, 128 + c % 64]
  else if c < 65536 then [224 + c / 4096, 128 + c / 64 % 64, 128 + c % 64]
  else [240 + c / 262144, 128 + c / 4096 % 64, 128 + c / 64 % 64,
    128 + c % 64]

/-- `payload.encode("utf-8")`: the UTF-8 bytes of a string (Lean strings,
like Python strings of valid text, are sequences of Unicode scalar values). -/
def utf8Encode (s : String) : List Nat :=
  s.data.foldr (fun ch acc => utf8EncodeChar ch.toNat ++ acc) []

/-- `Metrics.compress` from `_metrics.py` (and the body of
`MetricsBase._compress`, which applies the same gzip call to the
`json.dumps` serialization): gzip the UTF-8 encoding of `data`, with the
header MTIME stamped from the current time `mtime` (CPython's `GzipFile`
uses `int(time.time())` when no `mtime` is passed). -/
def Metrics.compress (data : String) (mtime : Nat) : List Nat :=
  gzipCompressBytes mtime (utf8Encode data)

/-! ## Compressor lemmas -/

theorem inflate_final_block (chunk X : List Nat) (h : chunk.length ≤ 65535) :
    inflate (mkStoredBlock 1 chunk ++ X) = some (chunk, X) := by
  have h1 : chunk.length % 256 + 256 * (chunk.length / 256) = chunk.length := by
    omega
  have h2 : (65535 - chunk.length) % 256
      + 256 * ((65535 - chunk.length) / 256) = 65535 - chunk.length := by
    omega
  have h3 : chunk.length ≤ (chunk ++ X).length := by
    simp
  simp only [mkStoredBlock, List.cons_append]
  rw [inflate]
  simp only [h1, h2]
  rw [if_pos ⟨trivial, h, h3⟩, if_pos trivial, List.take_left, List.drop_left]

theorem inflate_nonfinal_block (chunk X : List Nat) (h : chunk.length = 65535) :
    inflate (mkStoredBlock 0 chunk ++ X)
      = (inflate X).map (fun p => (chunk ++ p.1, p.2)) := by
  have h1 : chunk.length % 256 + 256 * (chunk.length / 256) = chunk.length := by
    omega
  have h2 : (65535 - chunk.length) % 256
      + 256 * ((65535 - chunk.length) / 256) = 65535 - chunk.length := by
    omega
  have h3 : chunk.length ≤ (chunk ++ X).length := by
    simp
  have hle : chunk.length ≤ 65535 := by omega
  simp only [mkStoredBlock, List.cons_append]
  rw [inflate]
  simp only [h1, h2]
  rw [if_pos ⟨trivial, hle, h3⟩, if_neg (by omega : ¬(0 = 1)), if_pos trivial,
    List.take_left, List.drop_left]

/-- Round-trip of the stored-block deflate codec, with trailing bytes
passed through. -/
theorem inflate_deflateStored (bs rest : List Nat) :
    inflate (deflateStored bs ++ rest) = some (bs, rest) := by
  suffices haux : ∀ (n : Nat) (bs rest : List Nat), bs.length ≤ n →
      inflate (deflateStored bs ++ rest) = some (bs, rest) by
    exact haux bs.length bs rest le_rfl
  intro n
  induction n with
  | zero =>
    intro bs rest hle
    have hb : bs.length ≤ 65535 := by omega
    rw [deflateStored, dif_pos hb]
    exact inflate_final_block bs rest hb
  | succ n ih =>
    intro bs rest hle
    by_cases hb : bs.length ≤ 65535
    · rw [deflateStored, dif_pos hb]
      exact inflate_final_block bs rest hb
    · rw [deflateStored, dif_neg hb, List.append_assoc]
      have htk : (bs.take 65535).length = 65535 := by
        rw [List.length_take]
        omega
      rw [inflate_nonfinal_block _ _ htk]
      have hdl : (bs.drop 65535).length ≤ n := by
        rw [List.length_drop]
        omega
      rw [ih (bs.drop 65535) rest hdl]
      show some (bs.take 65535 ++ bs.drop 65535, rest) = some (bs, rest)
      rw [List.take_append_drop]

theorem crcStep_lt {c : Nat} (hc : c < 2 ^ 32) : crcStep c < 2 ^ 32 := by
  rw [crcStep]
  split
  · exact Nat.xor_lt_two_pow (by omega) (by norm_num [crc32Poly])
  · omega

theorem crcIter_lt (k : Nat) {c : Nat} (hc : c < 2 ^ 32) :
    crcStep^[k] c < 2 ^ 32 := by
  induction k generalizing c with
  | zero => simpa using hc
  | succ k ih =>
    rw [Function.iterate_succ_apply]
    exact ih (crcStep_lt hc)

/-- The CRC-32 accumulator never leaves 32 bits. -/
theorem crc32_lt (bs : List Nat) : crc32 bs < 2 ^ 32 := by
  rw [crc32]
  have hfold : ∀ (l : List Nat) (c : Nat), c < 2 ^ 32 →
      l.foldl crcByteStep c < 2 ^ 32 := by
    intro l
    induction l with
    | nil =>
      intro c hc
      simpa using hc
    | cons b l ih =>
      intro c hc
      rw [List.foldl_cons]
      apply ih
      rw [crcByteStep]
      exact crcIter_lt 8 (Nat.xor_lt_two_pow hc (by omega))
  exact Nat.xor_lt_two_pow (hfold bs 0xFFFFFFFF (by norm_num)) (by norm_num)

/-- Reading back a gzip member recovers exactly the payload bytes, whatever
MTIME value the header was stamped with. -/
theorem gzipDecompressBytes_gzipCompressBytes (mtime : Nat) (bs : List Nat) :
    gzipDecompressBytes (gzipCompressBytes mtime bs) = some bs := by
  simp only [gzipCompressBytes, gzipHeader, le32, List.cons_append,
    List.append_assoc, List.nil_append]
  rw [gzipDecompressBytes]
  rw [if_pos ⟨rfl, rfl, rfl, rfl⟩]
  rw [inflate_deflateStored]
  have hc32 : crc32 bs < 4294967296 := by
    have h := crc32_lt bs
    norm_num at h
    exact h
  have hcrc : crc32 bs % 256 + 256 * (crc32 bs / 256 % 256)
      + 65536 * (crc32 bs / 65536 % 256)
      + 16777216 * (crc32 bs / 16777216 % 256) = crc32 bs := by
    omega
  have hlen : bs.length % 4294967296 % 256
      + 256 * (bs.length % 4294967296 / 256 % 256)
      + 65536 * (bs.length % 4294967296 / 65536 % 256)
      + 16777216 * (bs.length % 4294967296 / 16777216 % 256)
      = bs.length % 4294967296 := by
    omega
  show (if crc32 bs % 256 + 256 * (crc32 bs / 256 % 256)
      + 65536 * (crc32 bs / 65536 % 256)
      + 16777216 * (crc32 bs / 16777216 % 256) = crc32 bs ∧
      bs.length % 4294967296 % 256
      + 256 * (bs.length % 4294967296 / 256 % 256)
      + 65536 * (bs.length % 4294967296 / 65536 % 256)
      + 16777216 * (bs.length % 4294967296 / 16777216 % 256)
      = bs.length % 4294967296 then some bs else none) = some bs
  rw [if_pos ⟨hcrc, hlen⟩]

/-! ## Theorems: the compressor -/

/-- C6: for every string payload — empty, ASCII or non-ASCII — and whatever
time the gzip header gets stamped with, gzip-decompressing the bytes
returned by `compress(payload)` yields exactly the UTF-8 encoding of the
payload. -/
theorem Metrics.compress_roundtrip (data : String) (mtime : Nat) :
    gzipDecompressBytes (Metrics.compress data mtime)
      = some (utf8Encode data) := by
  rw [Metrics.compress]
  exact gzipDecompressBytes_gzipCompressBytes mtime (utf8Encode data)

/-- C7 counterexample: the compressor is not deterministic across
invocations. Two calls of `compress` on the same payload "x", one with the
clock reading 0 and one with it reading 1 (`GzipFile` stamps
`int(time.time())` into the header because the code passes no `mtime`),
return different byte sequences. -/
theorem Metrics.compress_not_deterministic :
    Metrics.compress "x" 0 ≠ Metrics.compress "x" 1 := by
  intro h
  have h4 : (Metrics.compress "x" 0).get? 4 = (Metrics.compress "x" 1).get? 4 := by
    rw [h]
  rw [show (Metrics.compress "x" 0).get? 4 = some 0 from rfl,
    show (Metrics.compress "x" 1).get? 4 = some 1 from rfl] at h4
  simp at h4

/-- C7 amended: the compressor is deterministic in everything except the
4-byte little-endian MTIME field (stream bytes 4 to 7), which records the
invocation time: any two invocations of `compress` on the same payload agree
on the 4 bytes before that field, on every byte after it, and on the total
length. -/
theorem Metrics.compress_deterministic_modulo_mtime (data : String)
    (t1 t2 : Nat) :
    (Metrics.compress data t1).take 4 = (Metrics.compress data t2).take 4 ∧
    (Metrics.compress data t1).drop 8 = (Metrics.compress data t2).drop 8 ∧
    (Metrics.compress data t1).length = (Metrics.compress data t2).length :=
  ⟨rfl, rfl, rfl⟩
